import Mathlib

/-!
# Verification of the daily log-to-report pipeline

Shallow embedding of `send_daily_report` from `src/main.py` of the
Instagram-Reel-Downloader Telegram bot, together with theorems about the
aggregation, rendering and delivery/truncation behaviour.

The embedding follows the Python source line by line:

* `pyContains`, `pyStrip`, `pySplitOnce`, `pySplitAll` model the Python string
  operations `in`, `str.strip()`, `str.split(sep, 1)` (with the `ValueError`
  on unpacking modelled as `none`) and `str.split(sep)`.
* `parseLine` models lines 92–109 of `main.py`: the `"UserID=" in log` guard,
  the `log.strip().split(" | ", 1)` unpacking, and the `log_data` dictionary
  built from splitting on `", "` and on the first `"="`.
* `procLine` models one iteration of the `for log in log_lines` loop
  (lines 91–116), including the fact that `total_interactions += 1` runs
  *before* the timestamp split is attempted.
* `formatted_report` models the report construction (lines 119–129).
* `pipelineBody` / `send_daily_report` model the whole function body
  (lines 72–156): the existence/emptiness checks, the outbound PUT, the
  status-200-guarded truncation, the report-file removal, and the outer
  `try/except Exception` boundary.  External effects (filesystem, HTTP)
  are supplied by an `Env` record; each effectful step may raise, and the
  run produces a trace of attempted effects plus the final log content.
-/

/-- Whitespace characters stripped by Python `str.strip()`. -/
def pyWhitespace (c : Char) : Bool :=
  c == ' ' || c == '\t' || c == '\n' || c == '\r' ||
    c == Char.ofNat 11 || c == Char.ofNat 12

/-- Python `needle in hay` on strings: `needle` occurs as a contiguous
substring of `hay`. -/
def infixAt (needle : List Char) : List Char → Bool
  | [] => needle.isEmpty
  | c :: rest => List.isPrefixOf needle (c :: rest) || infixAt needle rest

/-- Python `needle in hay` for strings. -/
def pyContains (needle hay : String) : Bool :=
  infixAt needle.data hay.data

/-- Python `s.strip()`: drop leading and trailing whitespace. -/
def pyStrip (s : String) : String :=
  String.mk ((((s.data.dropWhile pyWhitespace).reverse).dropWhile pyWhitespace).reverse)

/-- Split at the first occurrence of `sep` (assumed non-empty): returns the
part before and the part after, or `none` when `sep` does not occur.  This
models Python `a, b = s.split(sep, 1)`, whose `ValueError` on a missing
separator is modelled as `none`. -/
def splitOnceAux (sep : List Char) : List Char → Option (List Char × List Char)
  | [] => none
  | c :: rest =>
    if List.isPrefixOf sep (c :: rest) then
      some ([], List.drop sep.length (c :: rest))
    else
      match splitOnceAux sep rest with
      | none => none
      | some p => some (c :: p.1, p.2)

/-- String-level wrapper for `splitOnceAux`. -/
def pySplitOnce (sep s : String) : Option (String × String) :=
  match splitOnceAux sep.data s.data with
  | none => none
  | some p => some (String.mk p.1, String.mk p.2)

/-- Fuelled worker for Python `s.split(sep)` with non-empty `sep`; each
successful split strictly shrinks the remainder, so `length + 1` fuel always
suffices. -/
def pySplitAllAux (sep : List Char) : Nat → List Char → List (List Char)
  | 0, s => [s]
  | fuel + 1, s =>
    match splitOnceAux sep s with
    | none => [s]
    | some p => p.1 :: pySplitAllAux sep fuel p.2

/-- Python `s.split(sep)` for a non-empty separator. -/
def pySplitAll (sep s : String) : List String :=
  (pySplitAllAux sep.data (s.data.length + 1) s.data).map String.mk

/-- The `log_data` dictionary of lines 101–105: split the payload on `", "`,
keep the parts containing `'='`, split each on the first `'='` and strip both
sides.  Kept as an association list in insertion order; duplicate keys are
resolved by `dictGet` (last write wins, as in a Python dict). -/
def parseFields (data : String) : List (String × String) :=
  (pySplitAll ", " data).filterMap fun part =>
    match pySplitOnce "=" part with
    | none => none
    | some kv => some (pyStrip kv.1, pyStrip kv.2)

/-- `d.get(k)` on the association-list model of a Python dict: the most
recent binding of `k` wins. -/
def dictGet : List (String × String) → String → Option String
  | [], _ => none
  | (a, b) :: rest, k =>
    match dictGet rest k with
    | some v => some v
    | none => if a = k then some b else none

/-- Python f-string interpolation of an optional value: `None` prints as
the literal string `"None"`, a present string prints as itself. -/
def pyShow : Option String → String
  | none => "None"
  | some s => s

/-- Result of examining one raw log line, mirroring lines 92–109. -/
inductive ParseResult where
  /-- The line does not contain `"UserID="`: `continue` before counting. -/
  | noMarker : ParseResult
  /-- The line contains the marker but `log.strip().split(" | ", 1)` raises
  `ValueError`: `continue` *after* `total_interactions += 1`. -/
  | noSplit : ParseResult
  /-- The line split into a timestamp and payload; the three fields are the
  results of `log_data.get(...)`. -/
  | parsed (timestamp : String) (user_id : Option String)
      (user_name : Option String) (url : Option String) : ParseResult
deriving DecidableEq

/-- Lines 92–109 of `main.py` for a single raw line. -/
def parseLine (log : String) : ParseResult :=
  if pyContains "UserID=" log = true then
    match pySplitOnce " | " (pyStrip log) with
    | none => ParseResult.noSplit
    | some p =>
      let log_data := parseFields p.2
      ParseResult.parsed p.1 (dictGet log_data "UserID")
        (dictGet log_data "Username") (dictGet log_data "URL")
  else ParseResult.noMarker

/-- Aggregation state of lines 85–89.  `unique_users` models the Python set
as a duplicate-free list in first-insertion order (faithful for membership
and cardinality, the only operations used); `interactions_per_user` models
the `defaultdict(int)` as an association list in first-insertion order;
`user_names` models the dict through its lookup function, the only way the
source reads it. -/
structure Agg where
  total_interactions : Nat
  unique_users : List String
  interactions_per_user : List (String × Nat)
  user_names : String → Option String
  detailed_logs : List String

/-- The initial aggregation state of lines 85–89. -/
def initAgg : Agg :=
  ⟨0, [], [], fun _ => none, []⟩

/-- `unique_users.add(uid)`: insert if absent (set semantics, first-seen
position). -/
def addUnique (l : List String) (x : String) : List String :=
  if x ∈ l then l else l ++ [x]

/-- `interactions_per_user[uid] += 1` on a `defaultdict(int)`: bump an
existing entry in place, or append a fresh entry with count 1. -/
def bumpCount : List (String × Nat) → String → List (String × Nat)
  | [], k => [(k, 1)]
  | (a, n) :: rest, k =>
    if a = k then (a, n + 1) :: rest else (a, n) :: bumpCount rest k

/-- `user_names[uid] = name` on the function model of the dict. -/
def setName (f : String → Option String) (k v : String) : String → Option String :=
  fun id => if id = k then some v else f id

/-- One iteration of the `for log in log_lines` loop (lines 91–116). -/
def procLine (st : Agg) (log : String) : Agg :=
  match parseLine log with
  | ParseResult.noMarker => st
  | ParseResult.noSplit =>
    { st with total_interactions := st.total_interactions + 1 }
  | ParseResult.parsed timestamp user_id user_name url =>
    let st1 := { st with total_interactions := st.total_interactions + 1 }
    match user_id with
    | none => st1
    | some uid =>
      if uid = "" then st1
      else
        { st1 with
          unique_users := addUnique st1.unique_users uid
          interactions_per_user := bumpCount st1.interactions_per_user uid
          user_names :=
            match user_name with
            | some n => if n = "" then st1.user_names else setName st1.user_names uid n
            | none => st1.user_names
          detailed_logs := st1.detailed_logs ++
            [timestamp ++ " | " ++ pyShow user_name ++ " (" ++ uid ++ ") -> " ++ pyShow url] }

/-- The whole aggregation loop over the lines read from the log file. -/
def aggregate (log_lines : List String) : Agg :=
  log_lines.foldl procLine initAgg

/-- One per-user bullet of lines 124–126: `user_names.get(user_id, 'N/A')`
renders a user with no recorded name as `N/A`. -/
def renderUserLine (user_names : String → Option String) (p : String × Nat) : String :=
  "* **User:** " ++ (user_names p.1).getD "N/A" ++ " (ID: `" ++ p.1 ++
    "`) - **Interactions:** " ++ toString p.2 ++ "\n"

/-- The report document of lines 119–129, as a function of the aggregation
result and the current date. -/
def formatted_report (agg : Agg) (date : String) : String :=
  "# Daily User Interaction Report (" ++ date ++ ")\n\n" ++
  "**Total Interactions:** " ++ toString agg.total_interactions ++ "\n" ++
  "**Unique Users:** " ++ toString agg.unique_users.length ++ "\n\n" ++
  "### Interactions Per User\n" ++
  String.join (agg.interactions_per_user.map (renderUserLine agg.user_names)) ++
  "\n### Detailed Log\n" ++
  "```\n" ++ String.intercalate "\n" agg.detailed_logs ++ "\n```\n"

/-- External world of one pipeline run: the state of the log file, the HTTP
response of the outbound PUT, and one flag per effectful step saying whether
that step raises an exception (modelling `IOError`/`requests` errors). -/
structure Env where
  /-- `os.path.exists(LOG_FILE)` (line 74). -/
  logFileExists : Bool
  /-- The lines `f.readlines()` returns when the read succeeds (line 79). -/
  logLines : List String
  /-- The `open(LOG_FILE, 'r')`/`readlines` call raises (lines 78–79). -/
  readRaises : Bool
  /-- Writing the report file raises (lines 133–134). -/
  reportWriteRaises : Bool
  /-- `requests.put` itself raises, so no response exists (lines 138–142). -/
  sendRaises : Bool
  /-- `response.status_code` when the PUT returns a response (line 144). -/
  deliveryStatus : Nat
  /-- Truncating the log file raises, i.e. `open(LOG_FILE, 'w')` fails before
  the file is reset (line 147). -/
  truncateRaises : Bool
  /-- `os.remove(report_filename)` raises (line 153). -/
  removeRaises : Bool
  /-- `datetime.now().strftime('%Y-%m-%d')`. -/
  date : String

/-- Observable effects attempted by one run, in order. -/
inductive Event where
  /-- The log file was opened and read (lines 78–79). -/
  | readLog : Event
  /-- The rendered report was written to the report file (lines 133–134). -/
  | writeReport : Event
  /-- The outbound PUT completed with the given status, carrying the given
  document as its body (lines 137–142). -/
  | sendReport (status : Nat) (doc : String) : Event
  /-- The log file was truncated to empty (lines 147–148). -/
  | truncateLog : Event
  /-- The transient report file was removed (line 153). -/
  | removeReport : Event
deriving DecidableEq

/-- Outcome of one run, as observed through the source's logging calls. -/
inductive Outcome where
  /-- One of the two early returns of lines 74–83. -/
  | skipped (reason : String) : Outcome
  /-- Status 200: "Daily report sent to ntfy successfully." (line 145). -/
  | delivered : Outcome
  /-- Non-200 status: "Failed to send report to ntfy." (lines 150–151). -/
  | deliveryFailed (status : Nat) : Outcome
  /-- An exception reached the `except Exception` handler (lines 155–156). -/
  | errorCaught (detail : String) : Outcome
deriving DecidableEq

/-- Result of one run: the trace of attempted effects, the final content of
the log file (as lines), and the outcome. -/
structure Run where
  trace : List Event
  finalLog : List String
  outcome : Outcome
deriving DecidableEq

/-- The body of `send_daily_report` (lines 74–153), i.e. everything inside
the `try`.  Returns the effect trace, the final log content, and either a
normal outcome or the exception that escapes to the handler. -/
def pipelineBody (env : Env) : List Event × List String × Except String Outcome :=
  if env.logFileExists = false then
    ([], env.logLines, Except.ok (Outcome.skipped "no-data"))
  else if env.readRaises = true then
    ([Event.readLog], env.logLines, Except.error "log read failed")
  else if env.logLines.isEmpty = true then
    ([Event.readLog], env.logLines, Except.ok (Outcome.skipped "no-lines"))
  else if env.reportWriteRaises = true then
    ([Event.readLog], env.logLines, Except.error "report write failed")
  else if env.sendRaises = true then
    ([Event.readLog, Event.writeReport], env.logLines, Except.error "put failed")
  else if env.deliveryStatus = 200 then
    if env.truncateRaises = true then
      ([Event.readLog, Event.writeReport,
        Event.sendReport 200 (formatted_report (aggregate env.logLines) env.date),
        Event.truncateLog],
       env.logLines, Except.error "truncate failed")
    else if env.removeRaises = true then
      ([Event.readLog, Event.writeReport,
        Event.sendReport 200 (formatted_report (aggregate env.logLines) env.date),
        Event.truncateLog, Event.removeReport],
       [], Except.error "remove failed")
    else
      ([Event.readLog, Event.writeReport,
        Event.sendReport 200 (formatted_report (aggregate env.logLines) env.date),
        Event.truncateLog, Event.removeReport],
       [], Except.ok Outcome.delivered)
  else if env.removeRaises = true then
    ([Event.readLog, Event.writeReport,
      Event.sendReport env.deliveryStatus (formatted_report (aggregate env.logLines) env.date),
      Event.removeReport],
     env.logLines, Except.error "remove failed")
  else
    ([Event.readLog, Event.writeReport,
      Event.sendReport env.deliveryStatus (formatted_report (aggregate env.logLines) env.date),
      Event.removeReport],
     env.logLines, Except.ok (Outcome.deliveryFailed env.deliveryStatus))

/-- `send_daily_report` (lines 72–156): the body wrapped in the
`try/except Exception` boundary, which turns any raised exception into a
logged `errorCaught` outcome instead of propagating it. -/
def send_daily_report (env : Env) : Run :=
  match pipelineBody env with
  | (trace, finalLog, Except.ok outcome) => ⟨trace, finalLog, outcome⟩
  | (trace, finalLog, Except.error e) => ⟨trace, finalLog, Outcome.errorCaught e⟩

/-- The accepted records of a line sequence: for each line that contains the
marker, splits into two parts, and yields a non-empty `UserID`, the pair of
that user id and the optional `Username` field.  One entry per accepted
record, in input order. -/
def recordsOf : List String → List (String × Option String)
  | [] => []
  | l :: rest =>
    match parseLine l with
    | ParseResult.parsed _ (some u) name _ =>
      if u = "" then recordsOf rest else (u, name) :: recordsOf rest
    | _ => recordsOf rest

/-- The last non-empty username for `id` among the records, in input order:
`none` when no record for `id` carries a non-empty name. -/
def lastNonEmptyName : List (String × Option String) → String → Option String
  | [], _ => none
  | (uid, name) :: rest, id =>
    match lastNonEmptyName rest id with
    | some v => some v
    | none =>
      if uid = id then
        match name with
        | some n => if n = "" then none else some n
        | none => none
      else none

/-- Number of lines containing the identity marker `"UserID="`. -/
def markerCount : List String → Nat
  | [] => 0
  | l :: rest => (if pyContains "UserID=" l = true then 1 else 0) + markerCount rest

/-- Sum of the per-user interaction counts. -/
def sumCounts (l : List (String × Nat)) : Nat :=
  (l.map Prod.snd).sum

/-- Remove every occurrence of `x` from a list. -/
def removeAll (x : String) : List String → List String
  | [] => []
  | y :: rest => if y = x then removeAll x rest else y :: removeAll x rest

/-- Keep only the first occurrence of each element, preserving order: the
reference notion of "first-seen insertion order". -/
def firstOccurrences : List String → List String
  | [] => []
  | x :: rest => x :: removeAll x (firstOccurrences rest)

/-- Drop the elements that belong to `acc`. -/
def dropIn (acc : List String) : List String → List String
  | [] => []
  | y :: rest => if y ∈ acc then dropIn acc rest else y :: dropIn acc rest

/-- A run with one unparseable-but-markerless line and a 200 response:
delivery succeeds even though no record is accepted. -/
def envGarbage : Env :=
  ⟨true, ["hello\n"], false, false, false, 200, false, false, "2025-09-04"⟩

/-- A run whose delivery responds with status 500. -/
def env500 : Env :=
  ⟨true, ["2025-09-04 15:10:00 | UserID=42, Username=Bob, URL=https://instagram.com/reels/abc\n"],
   false, false, false, 500, false, false, "2025-09-04"⟩

/-- A run in which reading the log file raises. -/
def envReadFail : Env :=
  ⟨true, [], true, false, false, 200, false, false, "2025-09-04"⟩

/-- An absent log file. -/
def envNoFile : Env :=
  ⟨false, [], false, false, false, 200, false, false, "2025-09-04"⟩

/-- Three lines for one user whose usernames are `Alice`, the empty string,
and `Bob`, in that order. -/
def nameLines : List String :=
  ["t1 | UserID=u1, Username=Alice, URL=x\n",
   "t2 | UserID=u1, Username=, URL=x\n",
   "t3 | UserID=u1, Username=Bob, URL=x\n"]

theorem parseLine_eq_noMarker {l : String} (h : pyContains "UserID=" l = false) :
    parseLine l = ParseResult.noMarker := by
  unfold parseLine; simp [h]

theorem parseLine_eq_noSplit {l : String} (h : pyContains "UserID=" l = true)
    (hs : pySplitOnce " | " (pyStrip l) = none) :
    parseLine l = ParseResult.noSplit := by
  unfold parseLine; simp [h, hs]

theorem parseLine_eq_parsed {l : String} {p : String × String}
    (h : pyContains "UserID=" l = true)
    (hs : pySplitOnce " | " (pyStrip l) = some p) :
    parseLine l = ParseResult.parsed p.1 (dictGet (parseFields p.2) "UserID")
      (dictGet (parseFields p.2) "Username") (dictGet (parseFields p.2) "URL") := by
  unfold parseLine; simp [h, hs]

theorem keys_bumpCount (l : List (String × Nat)) (k : String) :
    (bumpCount l k).map Prod.fst = addUnique (l.map Prod.fst) k := by
  induction l with
  | nil => simp [bumpCount, addUnique]
  | cons p rest ih =>
    obtain ⟨a, n⟩ := p
    by_cases h : a = k
    · subst h
      simp [bumpCount, addUnique]
    · by_cases hk : k ∈ rest.map Prod.fst
      · simp [bumpCount, addUnique, h, ih, hk, Ne.symm h]
      · simp [bumpCount, addUnique, h, ih, hk, Ne.symm h]

theorem sum_bumpCount (l : List (String × Nat)) (k : String) :
    sumCounts (bumpCount l k) = sumCounts l + 1 := by
  induction l with
  | nil => simp [bumpCount, sumCounts]
  | cons p rest ih =>
    obtain ⟨a, n⟩ := p
    by_cases h : a = k <;> simp [bumpCount, sumCounts, h] at ih ⊢ <;> omega

theorem total_foldl (lines : List String) : ∀ st : Agg,
    (lines.foldl procLine st).total_interactions =
      st.total_interactions + markerCount lines := by
  induction lines with
  | nil => intro st; simp [markerCount]
  | cons l rest ih =>
    intro st
    rw [List.foldl_cons, ih]
    have hstep : (procLine st l).total_interactions =
        st.total_interactions + (if pyContains "UserID=" l = true then 1 else 0) := by
      by_cases hm : pyContains "UserID=" l = true
      · cases hs : pySplitOnce " | " (pyStrip l) with
        | none => simp [procLine, parseLine_eq_noSplit hm hs, hm]
        | some p =>
          cases hu : dictGet (parseFields p.2) "UserID" with
          | none => simp [procLine, parseLine_eq_parsed hm hs, hu, hm]
          | some u =>
            by_cases he : u = "" <;>
              simp [procLine, parseLine_eq_parsed hm hs, hu, he, hm]
      · have hm' : pyContains "UserID=" l = false := by
          cases hq : pyContains "UserID=" l
          · rfl
          · exact absurd hq hm
        simp [procLine, parseLine_eq_noMarker hm', hm']
    rw [hstep, markerCount]
    omega

theorem sum_foldl (lines : List String) : ∀ st : Agg,
    sumCounts (lines.foldl procLine st).interactions_per_user =
      sumCounts st.interactions_per_user + (recordsOf lines).length := by
  induction lines with
  | nil => intro st; simp [recordsOf]
  | cons l rest ih =>
    intro st
    rw [List.foldl_cons, ih]
    by_cases hm : pyContains "UserID=" l = true
    · cases hs : pySplitOnce " | " (pyStrip l) with
      | none =>
        simp [procLine, parseLine_eq_noSplit hm hs, recordsOf]
      | some p =>
        cases hu : dictGet (parseFields p.2) "UserID" with
        | none =>
          simp [procLine, parseLine_eq_parsed hm hs, recordsOf, hu]
        | some u =>
          by_cases he : u = ""
          · simp [procLine, parseLine_eq_parsed hm hs, recordsOf, hu, he]
          · simp [procLine, parseLine_eq_parsed hm hs, recordsOf, hu, he, sum_bumpCount]
            omega
    · have hm' : pyContains "UserID=" l = false := by
        cases hq : pyContains "UserID=" l
        · rfl
        · exact absurd hq hm
      simp [procLine, parseLine_eq_noMarker hm', recordsOf, parseLine_eq_noMarker hm']

theorem records_le_marker (lines : List String) :
    (recordsOf lines).length ≤ markerCount lines := by
  induction lines with
  | nil => simp [recordsOf, markerCount]
  | cons l rest ih =>
    by_cases hm : pyContains "UserID=" l = true
    · cases hs : pySplitOnce " | " (pyStrip l) with
      | none =>
        simp only [recordsOf, parseLine_eq_noSplit hm hs, markerCount, hm, if_true]
        omega
      | some p =>
        cases hu : dictGet (parseFields p.2) "UserID" with
        | none =>
          simp only [recordsOf, parseLine_eq_parsed hm hs, hu, markerCount, hm, if_true]
          omega
        | some u =>
          by_cases he : u = "" <;>
            simp only [recordsOf, parseLine_eq_parsed hm hs, hu, he, if_true, if_false,
              markerCount, hm, List.length_cons] <;>
            omega
    · have hm' : pyContains "UserID=" l = false := by
        cases hq : pyContains "UserID=" l
        · rfl
        · exact absurd hq hm
      simp only [recordsOf, parseLine_eq_noMarker hm', markerCount, hm', Bool.false_eq_true,
        if_false]
      omega

theorem keys_foldl (lines : List String) : ∀ st : Agg,
    st.interactions_per_user.map Prod.fst = st.unique_users →
    (lines.foldl procLine st).interactions_per_user.map Prod.fst =
      (lines.foldl procLine st).unique_users := by
  induction lines with
  | nil => intro st h; simpa using h
  | cons l rest ih =>
    intro st h
    rw [List.foldl_cons]
    apply ih
    by_cases hm : pyContains "UserID=" l = true
    · cases hs : pySplitOnce " | " (pyStrip l) with
      | none => simpa [procLine, parseLine_eq_noSplit hm hs] using h
      | some p =>
        cases hu : dictGet (parseFields p.2) "UserID" with
        | none => simpa [procLine, parseLine_eq_parsed hm hs, hu] using h
        | some u =>
          by_cases he : u = ""
          · simpa [procLine, parseLine_eq_parsed hm hs, hu, he] using h
          · simp [procLine, parseLine_eq_parsed hm hs, hu, he, keys_bumpCount, h]
    · have hm' : pyContains "UserID=" l = false := by
        cases hq : pyContains "UserID=" l
        · rfl
        · exact absurd hq hm
      simpa [procLine, parseLine_eq_noMarker hm'] using h

theorem unique_foldl (lines : List String) : ∀ st : Agg,
    (lines.foldl procLine st).unique_users =
      ((recordsOf lines).map Prod.fst).foldl addUnique st.unique_users := by
  induction lines with
  | nil => intro st; simp [recordsOf]
  | cons l rest ih =>
    intro st
    rw [List.foldl_cons, ih]
    by_cases hm : pyContains "UserID=" l = true
    · cases hs : pySplitOnce " | " (pyStrip l) with
      | none => simp [procLine, parseLine_eq_noSplit hm hs, recordsOf]
      | some p =>
        cases hu : dictGet (parseFields p.2) "UserID" with
        | none => simp [procLine, parseLine_eq_parsed hm hs, recordsOf, hu]
        | some u =>
          by_cases he : u = "" <;>
            simp [procLine, parseLine_eq_parsed hm hs, recordsOf, hu, he]
    · have hm' : pyContains "UserID=" l = false := by
        cases hq : pyContains "UserID=" l
        · rfl
        · exact absurd hq hm
      simp [procLine, parseLine_eq_noMarker hm', recordsOf, parseLine_eq_noMarker hm']

theorem names_foldl (lines : List String) : ∀ (st : Agg) (id : String),
    (lines.foldl procLine st).user_names id =
      match lastNonEmptyName (recordsOf lines) id with
      | some v => some v
      | none => st.user_names id := by
  induction lines with
  | nil => intro st id; simp [recordsOf, lastNonEmptyName]
  | cons l rest ih =>
    intro st id
    rw [List.foldl_cons, ih]
    by_cases hm : pyContains "UserID=" l = true
    · cases hs : pySplitOnce " | " (pyStrip l) with
      | none => simp [procLine, parseLine_eq_noSplit hm hs, recordsOf]
      | some p =>
        cases hu : dictGet (parseFields p.2) "UserID" with
        | none => simp [procLine, parseLine_eq_parsed hm hs, recordsOf, hu]
        | some u =>
          by_cases he : u = ""
          · simp [procLine, parseLine_eq_parsed hm hs, recordsOf, hu, he]
          · cases hv : lastNonEmptyName (recordsOf rest) id with
            | some v =>
              simp [procLine, parseLine_eq_parsed hm hs, recordsOf, hu, he,
                lastNonEmptyName, hv]
            | none =>
              cases hn : dictGet (parseFields p.2) "Username" with
              | none =>
                by_cases hid : u = id
                · subst hid
                  simp [procLine, parseLine_eq_parsed hm hs, recordsOf, hu, he, hn,
                    lastNonEmptyName, hv]
                · simp [procLine, parseLine_eq_parsed hm hs, recordsOf, hu, he, hn,
                    lastNonEmptyName, hv, hid]
              | some n =>
                by_cases hne : n = ""
                · by_cases hid : u = id
                  · subst hid
                    simp [procLine, parseLine_eq_parsed hm hs, recordsOf, hu, he, hn,
                      hne, lastNonEmptyName, hv]
                  · simp [procLine, parseLine_eq_parsed hm hs, recordsOf, hu, he, hn,
                      hne, lastNonEmptyName, hv, hid]
                · by_cases hid : u = id
                  · subst hid
                    simp [procLine, parseLine_eq_parsed hm hs, recordsOf, hu, he, hn,
                      hne, lastNonEmptyName, hv, setName]
                  · simp [procLine, parseLine_eq_parsed hm hs, recordsOf, hu, he, hn,
                      hne, lastNonEmptyName, hv, hid, setName, Ne.symm hid]
    · have hm' : pyContains "UserID=" l = false := by
        cases hq : pyContains "UserID=" l
        · rfl
        · exact absurd hq hm
      simp [procLine, parseLine_eq_noMarker hm', recordsOf, parseLine_eq_noMarker hm']

theorem removeAll_idem (x : String) (l : List String) :
    removeAll x (removeAll x l) = removeAll x l := by
  induction l with
  | nil => rfl
  | cons y rest ih =>
    by_cases h : y = x <;> simp [removeAll, h, ih]

theorem removeAll_comm (a b : String) (l : List String) :
    removeAll a (removeAll b l) = removeAll b (removeAll a l) := by
  induction l with
  | nil => rfl
  | cons y rest ih =>
    by_cases hb : y = b
    · subst hb
      by_cases ha : y = a
      · subst ha
        simp [removeAll, ih]
      · simp [removeAll, ha, ih]
    · by_cases ha : y = a
      · subst ha
        simp [removeAll, hb, ih]
      · simp [removeAll, ha, hb, ih]

theorem firstOccurrences_removeAll (u : String) (l : List String) :
    firstOccurrences (removeAll u l) = removeAll u (firstOccurrences l) := by
  induction l with
  | nil => rfl
  | cons x rest ih =>
    by_cases h : x = u
    · subst h
      simp [removeAll, firstOccurrences, ih, removeAll_idem]
    · simp [removeAll, firstOccurrences, h, ih, removeAll_comm]

theorem dropIn_append_singleton (u : String) (l : List String) : ∀ acc : List String,
    dropIn (acc ++ [u]) l = removeAll u (dropIn acc l) := by
  induction l with
  | nil => intro acc; rfl
  | cons y rest ih =>
    intro acc
    by_cases hy : y ∈ acc
    · simp [dropIn, hy, ih, List.mem_append, removeAll]
    · by_cases hu : y = u
      · subst hu
        simp [dropIn, hy, ih, List.mem_append, removeAll]
      · simp [dropIn, hy, hu, ih, List.mem_append, removeAll]

theorem dropIn_nil (l : List String) : dropIn [] l = l := by
  induction l with
  | nil => rfl
  | cons y rest ih => simp [dropIn, ih]

theorem foldl_addUnique (l : List String) : ∀ acc : List String,
    l.foldl addUnique acc = acc ++ firstOccurrences (dropIn acc l) := by
  induction l with
  | nil => intro acc; simp [dropIn, firstOccurrences]
  | cons u rest ih =>
    intro acc
    rw [List.foldl_cons]
    by_cases hu : u ∈ acc
    · rw [ih]
      simp [addUnique, hu, dropIn]
    · rw [ih, addUnique, if_neg hu, dropIn_append_singleton, firstOccurrences_removeAll]
      simp [dropIn, hu, firstOccurrences]

/-- C2 (counterexample): the line `"UserID=abc"` contains the identity marker
and fails the two-part timestamp split, yet aggregating it increments
`total_interactions` from 0 to 1 — so such a line does *not* leave all
counters unchanged, refuting the claim as stated. -/
theorem unparsed_line_counts_counterexample :
    pyContains "UserID=" "UserID=abc" = true ∧
    pySplitOnce " | " (pyStrip "UserID=abc") = none ∧
    initAgg.total_interactions = 0 ∧
    (aggregate ["UserID=abc"]).total_interactions = 1 := by
  refine ⟨by decide, by decide, by decide, by decide⟩

/-- C2 (amended): a line without the identity marker `"UserID="` leaves the
whole aggregation state unchanged; a line with the marker whose
`" | "` split fails increments `total_interactions` by exactly one and
leaves `unique_users`, `interactions_per_user`, `user_names` and
`detailed_logs` unchanged. -/
theorem unparsed_line_effect (st : Agg) (log : String) :
    (pyContains "UserID=" log = false → procLine st log = st) ∧
    (pyContains "UserID=" log = true → pySplitOnce " | " (pyStrip log) = none →
      procLine st log = { st with total_interactions := st.total_interactions + 1 }) := by
  constructor
  · intro h
    simp [procLine, parseLine_eq_noMarker h]
  · intro h hs
    simp [procLine, parseLine_eq_noSplit h hs]

/-- Witness for `unparsed_line_effect` at the lines `"hello"` and
`"UserID=abc"`. -/
theorem unparsed_line_effect_witness :
    procLine initAgg "hello" = initAgg ∧
    procLine initAgg "UserID=abc" =
      { initAgg with total_interactions := initAgg.total_interactions + 1 } :=
  ⟨(unparsed_line_effect initAgg "hello").1 (by decide),
   (unparsed_line_effect initAgg "UserID=abc").2 (by decide) (by decide)⟩

/-- C3 (counterexample): for the single line `"UserID=abc"` the per-user
counts sum to 0 while `total_interactions` is 1, refuting the claimed
equality of the two. -/
theorem sum_eq_total_counterexample :
    sumCounts (aggregate ["UserID=abc"]).interactions_per_user = 0 ∧
    (aggregate ["UserID=abc"]).total_interactions = 1 := by
  refine ⟨by decide, by decide⟩

/-- C3 (amended): the per-user counts sum to the number of *accepted* records
(lines with the marker that split into two parts and carry a non-empty
`UserID`), which is at most `total_interactions`; the two differ exactly on
marker-bearing lines that fail the split or lack a non-empty `UserID`. -/
theorem sum_counts_eq_accepted (lines : List String) :
    sumCounts (aggregate lines).interactions_per_user = (recordsOf lines).length ∧
    sumCounts (aggregate lines).interactions_per_user ≤
      (aggregate lines).total_interactions := by
  have h1 := sum_foldl lines initAgg
  have h2 := total_foldl lines initAgg
  have h3 := records_le_marker lines
  constructor
  · rw [aggregate, h1]
    simp [initAgg, sumCounts]
  · rw [aggregate, h1, h2]
    simp only [initAgg, sumCounts, List.map_nil, List.sum_nil]
    omega

/-- C6: after aggregation, the recorded display name of every user id is the
last non-empty username seen for that id in input order (absent or empty
usernames never overwrite an earlier non-empty one); in particular the three
records `(u1, Alice)`, `(u1, "")`, `(u1, Bob)` yield `Bob`. -/
theorem display_name_last_nonempty (lines : List String) (id : String) :
    (aggregate lines).user_names id = lastNonEmptyName (recordsOf lines) id ∧
    recordsOf nameLines = [("u1", some "Alice"), ("u1", some ""), ("u1", some "Bob")] ∧
    (aggregate nameLines).user_names "u1" = some "Bob" := by
  refine ⟨?_, by decide, by decide⟩
  have h := names_foldl lines initAgg id
  rw [aggregate, h]
  cases lastNonEmptyName (recordsOf lines) id <;> simp [initAgg]

/-- C9: the key list of `interactions_per_user` is exactly `unique_users`: a
user id has a per-user count iff it is a member of `unique_users`, and the
number of per-user entries equals the number of unique users. -/
theorem per_user_keys_eq_unique_users (lines : List String) :
    (aggregate lines).interactions_per_user.map Prod.fst =
      (aggregate lines).unique_users ∧
    (∀ id, (∃ c, (id, c) ∈ (aggregate lines).interactions_per_user) ↔
      id ∈ (aggregate lines).unique_users) ∧
    (aggregate lines).interactions_per_user.length =
      (aggregate lines).unique_users.length := by
  have hk : (aggregate lines).interactions_per_user.map Prod.fst =
      (aggregate lines).unique_users := by
    rw [aggregate]
    exact keys_foldl lines initAgg (by simp [initAgg])
  refine ⟨hk, ?_, ?_⟩
  · intro id
    rw [← hk]
    constructor
    · rintro ⟨c, hc⟩
      exact List.mem_map_of_mem Prod.fst hc
    · intro hm
      rcases List.mem_map.mp hm with ⟨⟨a, c⟩, hp, he⟩
      simp only at he
      subst he
      exact ⟨c, hp⟩
  · rw [← hk, List.length_map]

/-- C10: an accepted record (marker present, split succeeded, `UserID`
non-empty) always appends one detail line built with `pyShow` on the optional
`Username` and `URL` fields, and `pyShow` renders a missing field as the
literal string `"None"`; the record still counts toward
`total_interactions`. -/
theorem missing_fields_render_none (st : Agg) (log ts u : String)
    (name url : Option String)
    (hp : parseLine log = ParseResult.parsed ts (some u) name url)
    (hu : u ≠ "") :
    (procLine st log).detailed_logs = st.detailed_logs ++
      [ts ++ " | " ++ pyShow name ++ " (" ++ u ++ ") -> " ++ pyShow url] ∧
    pyShow (none : Option String) = "None" ∧
    (procLine st log).total_interactions = st.total_interactions + 1 := by
  refine ⟨?_, rfl, ?_⟩ <;> simp [procLine, hp, hu]

/-- Witness for `missing_fields_render_none` at a line carrying only a
`UserID` field: both the username and the URL positions render as `None`. -/
theorem missing_fields_render_none_witness :
    (procLine initAgg "2025-09-04 15:10:00 | UserID=42").detailed_logs =
      initAgg.detailed_logs ++
        ["2025-09-04 15:10:00" ++ " | " ++ pyShow none ++ " (" ++ "42" ++ ") -> " ++
          pyShow none] ∧
    pyShow (none : Option String) = "None" ∧
    (procLine initAgg "2025-09-04 15:10:00 | UserID=42").total_interactions =
      initAgg.total_interactions + 1 :=
  missing_fields_render_none initAgg "2025-09-04 15:10:00 | UserID=42"
    "2025-09-04 15:10:00" "42" none none (by decide) (by decide)

/-- C7: the rendered report is, in order, a title containing the date, the
total-interactions and unique-users counts printed as plain integers, one
bulleted line per entry of `interactions_per_user`, and a fenced code block
containing `detailed_logs` joined by newlines; and the per-user entries are
listed in first-seen insertion order of the accepted user ids (not sorted by
count). -/
theorem report_structure (lines : List String) (date : String) :
    formatted_report (aggregate lines) date =
      "# Daily User Interaction Report (" ++ date ++ ")\n\n" ++
      "**Total Interactions:** " ++ toString (aggregate lines).total_interactions ++ "\n" ++
      "**Unique Users:** " ++ toString (aggregate lines).unique_users.length ++ "\n\n" ++
      "### Interactions Per User\n" ++
      String.join ((aggregate lines).interactions_per_user.map
        (renderUserLine (aggregate lines).user_names)) ++
      "\n### Detailed Log\n" ++
      "```\n" ++ String.intercalate "\n" (aggregate lines).detailed_logs ++ "\n```\n" ∧
    (aggregate lines).interactions_per_user.map Prod.fst =
      firstOccurrences ((recordsOf lines).map Prod.fst) := by
  constructor
  · rfl
  · have hk : (aggregate lines).interactions_per_user.map Prod.fst =
        (aggregate lines).unique_users := by
      rw [aggregate]
      exact keys_foldl lines initAgg (by simp [initAgg])
    rw [hk, aggregate, unique_foldl, foldl_addUnique]
    simp [initAgg, dropIn_nil]

/-- C1: the log is truncated only in runs whose delivery response status is
exactly 200, and then the truncation attempt immediately follows the
confirmed delivery: (i) with a non-200 status the log content is unchanged
and no truncation occurs; (ii) a truncation in the trace implies status 200
and sits directly after the status-200 send; (iii) every status-200 send is
directly followed by the truncation attempt. -/
theorem truncate_only_after_delivery (env : Env) :
    (env.deliveryStatus ≠ 200 →
      (send_daily_report env).finalLog = env.logLines ∧
      Event.truncateLog ∉ (send_daily_report env).trace) ∧
    (Event.truncateLog ∈ (send_daily_report env).trace →
      env.deliveryStatus = 200 ∧
      ∃ a b doc, (send_daily_report env).trace =
        a ++ Event.sendReport 200 doc :: Event.truncateLog :: b) ∧
    (∀ doc, Event.sendReport 200 doc ∈ (send_daily_report env).trace →
      ∃ a b, (send_daily_report env).trace =
        a ++ Event.sendReport 200 doc :: Event.truncateLog :: b) := by
  by_cases h1 : env.logFileExists = false
  · refine ⟨fun _ => ⟨?_, ?_⟩, fun hmem => ?_, fun doc hmem => ?_⟩
    · simp [send_daily_report, pipelineBody, h1]
    · simp [send_daily_report, pipelineBody, h1]
    · simp [send_daily_report, pipelineBody, h1] at hmem
    · simp [send_daily_report, pipelineBody, h1] at hmem
  · by_cases h2 : env.readRaises = true
    · refine ⟨fun _ => ⟨?_, ?_⟩, fun hmem => ?_, fun doc hmem => ?_⟩
      · simp [send_daily_report, pipelineBody, h1, h2]
      · simp [send_daily_report, pipelineBody, h1, h2]
      · simp [send_daily_report, pipelineBody, h1, h2] at hmem
      · simp [send_daily_report, pipelineBody, h1, h2] at hmem
    · by_cases h3 : env.logLines.isEmpty = true
      · refine ⟨fun _ => ⟨?_, ?_⟩, fun hmem => ?_, fun doc hmem => ?_⟩
        · simp [send_daily_report, pipelineBody, h1, h2, h3]
        · simp [send_daily_report, pipelineBody, h1, h2, h3]
        · simp [send_daily_report, pipelineBody, h1, h2, h3] at hmem
        · simp [send_daily_report, pipelineBody, h1, h2, h3] at hmem
      · by_cases h4 : env.reportWriteRaises = true
        · refine ⟨fun _ => ⟨?_, ?_⟩, fun hmem => ?_, fun doc hmem => ?_⟩
          · simp [send_daily_report, pipelineBody, h1, h2, h3, h4]
          · simp [send_daily_report, pipelineBody, h1, h2, h3, h4]
          · simp [send_daily_report, pipelineBody, h1, h2, h3, h4] at hmem
          · simp [send_daily_report, pipelineBody, h1, h2, h3, h4] at hmem
        · by_cases h5 : env.sendRaises = true
          · refine ⟨fun _ => ⟨?_, ?_⟩, fun hmem => ?_, fun doc hmem => ?_⟩
            · simp [send_daily_report, pipelineBody, h1, h2, h3, h4, h5]
            · simp [send_daily_report, pipelineBody, h1, h2, h3, h4, h5]
            · simp [send_daily_report, pipelineBody, h1, h2, h3, h4, h5] at hmem
            · simp [send_daily_report, pipelineBody, h1, h2, h3, h4, h5] at hmem
          · by_cases h6 : env.deliveryStatus = 200
            · refine ⟨fun hne => absurd h6 hne, fun _ => ⟨h6, ?_⟩, fun doc hmem => ?_⟩
              · by_cases h7 : env.truncateRaises = true
                · exact ⟨[Event.readLog, Event.writeReport],
                    [], formatted_report (aggregate env.logLines) env.date,
                    by simp [send_daily_report, pipelineBody, h1, h2, h3, h4, h5, h6, h7]⟩
                · by_cases h8 : env.removeRaises = true
                  · exact ⟨[Event.readLog, Event.writeReport],
                      [Event.removeReport], formatted_report (aggregate env.logLines) env.date,
                      by simp [send_daily_report, pipelineBody, h1, h2, h3, h4, h5, h6, h7, h8]⟩
                  · exact ⟨[Event.readLog, Event.writeReport],
                      [Event.removeReport], formatted_report (aggregate env.logLines) env.date,
                      by simp [send_daily_report, pipelineBody, h1, h2, h3, h4, h5, h6, h7, h8]⟩
              · by_cases h7 : env.truncateRaises = true
                · simp [send_daily_report, pipelineBody, h1, h2, h3, h4, h5, h6, h7] at hmem
                  subst hmem
                  exact ⟨[Event.readLog, Event.writeReport], [],
                    by simp [send_daily_report, pipelineBody, h1, h2, h3, h4, h5, h6, h7]⟩
                · by_cases h8 : env.removeRaises = true
                  · simp [send_daily_report, pipelineBody, h1, h2, h3, h4, h5, h6, h7, h8] at hmem
                    subst hmem
                    exact ⟨[Event.readLog, Event.writeReport], [Event.removeReport],
                      by simp [send_daily_report, pipelineBody, h1, h2, h3, h4, h5, h6, h7, h8]⟩
                  · simp [send_daily_report, pipelineBody, h1, h2, h3, h4, h5, h6, h7, h8] at hmem
                    subst hmem
                    exact ⟨[Event.readLog, Event.writeReport], [Event.removeReport],
                      by simp [send_daily_report, pipelineBody, h1, h2, h3, h4, h5, h6, h7, h8]⟩
            · by_cases h8 : env.removeRaises = true
              · refine ⟨fun _ => ⟨?_, ?_⟩, fun hmem => ?_, fun doc hmem => ?_⟩
                · simp [send_daily_report, pipelineBody, h1, h2, h3, h4, h5, h6, h8]
                · simp [send_daily_report, pipelineBody, h1, h2, h3, h4, h5, h6, h8]
                · simp [send_daily_report, pipelineBody, h1, h2, h3, h4, h5, h6, h8] at hmem
                · simp [send_daily_report, pipelineBody, h1, h2, h3, h4, h5, h6, h8] at hmem
                  exact absurd hmem.1.symm h6
              · refine ⟨fun _ => ⟨?_, ?_⟩, fun hmem => ?_, fun doc hmem => ?_⟩
                · simp [send_daily_report, pipelineBody, h1, h2, h3, h4, h5, h6, h8]
                · simp [send_daily_report, pipelineBody, h1, h2, h3, h4, h5, h6, h8]
                · simp [send_daily_report, pipelineBody, h1, h2, h3, h4, h5, h6, h8] at hmem
                · simp [send_daily_report, pipelineBody, h1, h2, h3, h4, h5, h6, h8] at hmem
                  exact absurd hmem.1.symm h6

/-- Witness for `truncate_only_after_delivery` at a run whose delivery
responds 500: the log content survives and no truncation happens. -/
theorem truncate_only_after_delivery_witness :
    (send_daily_report env500).finalLog = env500.logLines ∧
    Event.truncateLog ∉ (send_daily_report env500).trace :=
  (truncate_only_after_delivery env500).1 (by decide)

/-- C4 (counterexample): for a log that exists and holds one markerless line,
aggregation accepts zero records, yet the run delivers the (empty) rendered
report and ends `delivered` — the pipeline has no `totalInteractions == 0`
skip, refuting the claim. -/
theorem empty_report_pushed_counterexample :
    (aggregate envGarbage.logLines).total_interactions = 0 ∧
    (send_daily_report envGarbage).outcome = Outcome.delivered ∧
    Event.sendReport 200 (formatted_report (aggregate envGarbage.logLines) envGarbage.date) ∈
      (send_daily_report envGarbage).trace := by
  refine ⟨by decide, by decide, by decide⟩

/-- C4 (amended): once the log file exists and has lines (and the read,
report-write and send steps do not raise), the pipeline always issues the
outbound delivery carrying the rendered report — even when aggregation
accepts zero records; it never skips on `totalInteractions == 0`. -/
theorem delivery_attempted_when_lines_exist (env : Env)
    (h1 : env.logFileExists = true) (h2 : env.readRaises = false)
    (h3 : env.logLines.isEmpty = false) (h4 : env.reportWriteRaises = false)
    (h5 : env.sendRaises = false) :
    Event.sendReport env.deliveryStatus
        (formatted_report (aggregate env.logLines) env.date) ∈
      (send_daily_report env).trace := by
  by_cases h6 : env.deliveryStatus = 200
  · by_cases h7 : env.truncateRaises = true
    · simp [send_daily_report, pipelineBody, h1, h2, h3, h4, h5, h6, h7]
    · by_cases h8 : env.removeRaises = true
      · simp [send_daily_report, pipelineBody, h1, h2, h3, h4, h5, h6, h7, h8]
      · simp [send_daily_report, pipelineBody, h1, h2, h3, h4, h5, h6, h7, h8]
  · by_cases h8 : env.removeRaises = true
    · simp [send_daily_report, pipelineBody, h1, h2, h3, h4, h5, h6, h8]
    · simp [send_daily_report, pipelineBody, h1, h2, h3, h4, h5, h6, h8]

/-- Witness for `delivery_attempted_when_lines_exist` at the run with one
markerless line. -/
theorem delivery_attempted_witness :
    Event.sendReport envGarbage.deliveryStatus
        (formatted_report (aggregate envGarbage.logLines) envGarbage.date) ∈
      (send_daily_report envGarbage).trace :=
  delivery_attempted_when_lines_exist envGarbage rfl rfl rfl rfl rfl

/-- C5: when the log file is absent, or it is readable and holds no lines,
the run ends `skipped`, the log content is unchanged, and neither an outbound
send nor a truncation is attempted. -/
theorem skip_when_no_data (env : Env)
    (h : env.logFileExists = false ∨ (env.readRaises = false ∧ env.logLines = [])) :
    (∃ r, (send_daily_report env).outcome = Outcome.skipped r) ∧
    (send_daily_report env).finalLog = env.logLines ∧
    (∀ s doc, Event.sendReport s doc ∉ (send_daily_report env).trace) ∧
    Event.truncateLog ∉ (send_daily_report env).trace := by
  rcases h with h1 | ⟨h2, h3⟩
  · refine ⟨⟨"no-data", ?_⟩, ?_, ?_, ?_⟩ <;>
      simp [send_daily_report, pipelineBody, h1]
  · by_cases h1 : env.logFileExists = false
    · refine ⟨⟨"no-data", ?_⟩, ?_, ?_, ?_⟩ <;>
        simp [send_daily_report, pipelineBody, h1]
    · refine ⟨⟨"no-lines", ?_⟩, ?_, ?_, ?_⟩ <;>
        simp [send_daily_report, pipelineBody, h1, h2, h3]

/-- Witness for `skip_when_no_data` at an absent log file. -/
theorem skip_when_no_data_witness :
    (∃ r, (send_daily_report envNoFile).outcome = Outcome.skipped r) ∧
    (send_daily_report envNoFile).finalLog = envNoFile.logLines ∧
    (∀ s doc, Event.sendReport s doc ∉ (send_daily_report envNoFile).trace) ∧
    Event.truncateLog ∉ (send_daily_report envNoFile).trace :=
  skip_when_no_data envNoFile (Or.inl rfl)

/-- C8: whenever the pipeline body raises (any of the modelled filesystem or
HTTP failures), `send_daily_report` still returns normally: the
`try/except Exception` boundary absorbs the exception into an `errorCaught`
outcome, keeping the trace and log state reached at the raise point — no
exception propagates to the caller. -/
theorem errors_caught_at_boundary (env : Env) (e : String)
    (h : (pipelineBody env).2.2 = Except.error e) :
    send_daily_report env =
      ⟨(pipelineBody env).1, (pipelineBody env).2.1, Outcome.errorCaught e⟩ := by
  unfold send_daily_report
  rcases hq : pipelineBody env with ⟨t, l, r⟩
  rw [hq] at h
  simp only at h
  subst h
  simp [hq]

/-- Witness for `errors_caught_at_boundary` at a run whose log read raises. -/
theorem errors_caught_witness :
    send_daily_report envReadFail =
      ⟨(pipelineBody envReadFail).1, (pipelineBody envReadFail).2.1,
        Outcome.errorCaught "log read failed"⟩ :=
  errors_caught_at_boundary envReadFail "log read failed" rfl
